import Mathlib

/-!
Shallow embedding of the low-level threading primitives module
(`Modules/_threadmodule.c`): thread handles with join/detach, the
after-fork registry walk, plain locks, reentrant locks with
save/restore, and the stack-size configuration entry point.

OS-level concurrency is shallowed out in the standard way: the outcome
of a blocking mutex acquisition or an OS join/detach primitive is
passed in as an explicit argument (an oracle for what the OS returned),
and each operation is a pure function from the object state (plus that
oracle) to a pair of an optional raised error and the post-state.
-/

namespace ThreadModule

/-- Error conditions surfaced by the module operations, tagged with the
exception class and message the C code sets. `interrupted` stands for a
signal-delivered exception escaping a blocking acquire. -/
inductive Err where
  | valueError (msg : String)
  | threadError (msg : String)
  | runtimeError (msg : String)
  | overflowError (msg : String)
  | interrupted
  deriving DecidableEq, Repr

/-- Outcome of `PyThread_acquire_lock_timed_with_retries` (`acquire_timed`). -/
inductive PyLockStatus where
  | PY_LOCK_FAILURE
  | PY_LOCK_ACQUIRED
  | PY_LOCK_INTR
  deriving DecidableEq, Repr

/-! ## Thread handles (`ThreadHandleObject`) -/

/-- The fields of `ThreadHandleObject` the operations read and write:
the OS thread identity and the joinable flag. The opaque native handle
only flows into the OS join/detach primitives, which are oracles here. -/
structure ThreadHandleObject where
  ident : Nat
  joinable : Bool
  deriving DecidableEq, Repr

/-- `ThreadHandle_detach`: fails with ValueError when not joinable;
otherwise clears the joinable flag and calls the OS detach primitive,
whose success is the oracle `osDetachOk`; a failing primitive raises
ThreadError (with the flag already cleared). -/
def ThreadHandle_detach (self : ThreadHandleObject) (osDetachOk : Bool) :
    Option Err × ThreadHandleObject :=
  if self.joinable = false then
    (some (Err.valueError "the thread is not joinable and thus cannot be detached"), self)
  else
    let self := { self with joinable := false }
    if osDetachOk = false then
      (some (Err.threadError "Failed detaching thread"), self)
    else
      (none, self)

/-- `ThreadHandle_join`, called from the thread with identity `tid`:
fails with ValueError when not joinable; fails with ThreadError on
self-join (before touching the OS primitive); otherwise clears the
joinable flag first and then blocks on the OS join primitive, whose
success is the oracle `osJoinOk`; a failing primitive raises
ThreadError (with the flag already cleared). -/
def ThreadHandle_join (self : ThreadHandleObject) (tid : Nat) (osJoinOk : Bool) :
    Option Err × ThreadHandleObject :=
  if self.joinable = false then
    (some (Err.valueError "the thread is not joinable"), self)
  else if self.ident = tid then
    (some (Err.threadError "Cannot join current thread"), self)
  else
    let self := { self with joinable := false }
    if osJoinOk = false then
      (some (Err.threadError "Failed joining thread"), self)
    else
      (none, self)

/-- `_PyThread_AfterFork`, run in the child with the surviving thread
identity `current` over the registry list of handles: returns the
handles still registered afterwards and, separately, the handles that
were removed (in walk order), after their mutation. A handle whose
identity is `current` is skipped; every other handle has its joinable
flag cleared and its node unlinked from the registry list. -/
def _PyThread_AfterFork (current : Nat) (handles : List ThreadHandleObject) :
    List ThreadHandleObject × List ThreadHandleObject :=
  match handles with
  | [] => ([], [])
  | h :: t =>
    let rest := _PyThread_AfterFork current t
    if h.ident = current then
      (h :: rest.1, rest.2)
    else
      (rest.1, { h with joinable := false } :: rest.2)

/-! ## Plain locks (`lockobject`) -/

/-- `lockobject`: the advisory `locked` flag and the state of the
underlying OS mutex (`lock_lock`), which the C code holds opaquely. -/
structure lockobject where
  locked : Bool
  osHeld : Bool
  deriving DecidableEq, Repr

/-- `_PyTime_FromSeconds(-1)`: the sentinel nanosecond value meaning
"timeout not set". -/
def unset_timeout : Int := -1000000000

/-- Modelled from the spec: the platform upper bound on microsecond
timeouts (`PY_TIMEOUT_MAX`, not part of this module); the common value
`LLONG_MAX / 1000`. The claims do not depend on its exact value. -/
def PY_TIMEOUT_MAX : Int := 9223372036854775

/-- Modelled from the spec: `_PyTime_AsMicroseconds` with timeout
rounding (ceiling), applied only to non-negative timeouts here. -/
def _PyTime_AsMicroseconds (ns : Int) : Int := (ns + 999) / 1000

/-- `lock_acquire_parse_args`: validates `(blocking, timeout)` and
returns the effective timeout in nanoseconds. `timeout_obj` is the
already-converted nanosecond value of the timeout argument, `none` when
the argument was not passed. A timeout equal to the sentinel is treated
as unset. -/
def lock_acquire_parse_args (blocking : Bool) (timeout_obj : Option Int) :
    Except Err Int :=
  let timeout := timeout_obj.getD unset_timeout
  if blocking = false ∧ timeout ≠ unset_timeout then
    Except.error (Err.valueError "cannot specify a timeout for a non-blocking call")
  else if timeout < 0 ∧ timeout ≠ unset_timeout then
    Except.error (Err.valueError "timeout value must be a non-negative number")
  else if blocking = false then
    Except.ok 0
  else if timeout ≠ unset_timeout ∧ PY_TIMEOUT_MAX < _PyTime_AsMicroseconds timeout then
    Except.error (Err.overflowError "timeout value is too large")
  else
    Except.ok timeout

/-- `lock_PyThread_acquire_lock`: parse the arguments, then run the
timed acquisition on the OS mutex; `r` is the oracle for what
`acquire_timed` returned. Returns the raised error (if any), the Python
boolean result, and the post-state. -/
def lock_PyThread_acquire_lock (self : lockobject) (blocking : Bool)
    (timeout_obj : Option Int) (r : PyLockStatus) :
    Option Err × Bool × lockobject :=
  match lock_acquire_parse_args blocking timeout_obj with
  | Except.error e => (some e, false, self)
  | Except.ok _ =>
    match r with
    | PyLockStatus.PY_LOCK_INTR => (some Err.interrupted, false, self)
    | PyLockStatus.PY_LOCK_ACQUIRED =>
        (none, true, { self with locked := true, osHeld := true })
    | PyLockStatus.PY_LOCK_FAILURE => (none, false, self)

/-- `lock_PyThread_release_lock`: fails with ThreadError when the
`locked` flag is clear; otherwise releases the OS mutex and clears the
flag. The `tid` argument stands for the calling thread, which the code
never reads (its C parameter is ignored): any thread may release. -/
def lock_PyThread_release_lock (tid : Nat) (self : lockobject) :
    Option Err × lockobject :=
  if self.locked = false then
    (some (Err.threadError "release unlocked lock"), self)
  else
    (none, { self with locked := false, osHeld := false })

/-! ## Reentrant locks (`rlockobject`) -/

/-- Modulus of the C `unsigned long` recursion counter (LP64). -/
def ULONG_MOD : Nat := 2 ^ 64

/-- `rlockobject`: owner identity (0 = none), recursion count
(an `unsigned long` in C, so a value below `ULONG_MOD`), and the
state of the underlying OS mutex (`rlock_lock`). -/
structure rlockobject where
  rlock_owner : Nat
  rlock_count : Nat
  osHeld : Bool
  deriving DecidableEq, Repr

/-- `rlock_is_owned_by`: the lock is owned by `tid` when the owner
field equals `tid` and the count is positive. -/
def rlock_is_owned_by (self : rlockobject) (tid : Nat) : Bool :=
  self.rlock_owner == tid && self.rlock_count != 0

/-- `rlock_acquire`, called by thread `tid`: parse the arguments; if
the caller already owns the lock, bump the counter with the unsigned
wraparound check (OverflowError when `count + 1` wraps to a value not
above `count`) and return true without touching the OS mutex;
otherwise run the timed acquisition (oracle `r`) and on success record
the caller as owner with count 1. -/
def rlock_acquire (self : rlockobject) (tid : Nat) (blocking : Bool)
    (timeout_obj : Option Int) (r : PyLockStatus) :
    Option Err × Bool × rlockobject :=
  match lock_acquire_parse_args blocking timeout_obj with
  | Except.error e => (some e, false, self)
  | Except.ok _ =>
    if rlock_is_owned_by self tid then
      let count := (self.rlock_count + 1) % ULONG_MOD
      if count ≤ self.rlock_count then
        (some (Err.overflowError "Internal lock count overflowed"), false, self)
      else
        (none, true, { self with rlock_count := count })
    else
      match r with
      | PyLockStatus.PY_LOCK_ACQUIRED =>
          (none, true, { self with rlock_owner := tid, rlock_count := 1, osHeld := true })
      | PyLockStatus.PY_LOCK_INTR => (some Err.interrupted, false, self)
      | PyLockStatus.PY_LOCK_FAILURE => (none, false, self)

/-- `rlock_release`, called by thread `tid`: fails with RuntimeError
when the caller is not the current owner; otherwise decrements the
count, and exactly when it reaches zero clears the owner and releases
the OS mutex. -/
def rlock_release (self : rlockobject) (tid : Nat) : Option Err × rlockobject :=
  if rlock_is_owned_by self tid = false then
    (some (Err.runtimeError "cannot release un-acquired lock"), self)
  else
    let count := self.rlock_count - 1
    if count = 0 then
      (none, { self with rlock_count := 0, rlock_owner := 0, osHeld := false })
    else
      (none, { self with rlock_count := count })

/-- `rlock_release_save` (`_release_save`): fails with RuntimeError
when the count is zero; otherwise captures `(count, owner)`, zeroes
both fields, releases the OS mutex, and returns the captured pair. -/
def rlock_release_save (self : rlockobject) :
    Option Err × Option (Nat × Nat) × rlockobject :=
  if self.rlock_count = 0 then
    (some (Err.runtimeError "cannot release un-acquired lock"), none, self)
  else
    (none, some (self.rlock_count, self.rlock_owner),
     { self with rlock_count := 0, rlock_owner := 0, osHeld := false })

/-- `rlock_acquire_restore` (`_acquire_restore`) with saved values
`(count, owner)`: blocks (uninterruptibly) until the OS mutex is
acquired — modelled as the acquisition having completed, since the
blocking OS acquire does not fail, making the ThreadError branch of the
C code dead — then installs the saved owner and count verbatim. The
calling thread identity is never consulted. -/
def rlock_acquire_restore (self : rlockobject) (count : Nat) (owner : Nat) :
    rlockobject :=
  { self with osHeld := true, rlock_owner := owner, rlock_count := count }

/-! ## Stack-size configuration (`thread_stack_size`) -/

/-- The minimum supported stack size stated by the module (32 KiB). -/
def THREAD_MIN_STACKSIZE : Nat := 32768

/-- Modelled from the spec: `PyThread_set_stacksize` (platform thread
layer, not part of this module). Per the spec, 0 resets to the platform
default; positive values below the platform minimum are rejected
(return code -1, configuration unchanged); otherwise the configured
size is updated (return code 0). Takes the configured size to a pair of
the return code and the new configured size. -/
def PyThread_set_stacksize (size : Nat) (config : Nat) : Int × Nat :=
  if size = 0 then (0, 0)
  else if size < THREAD_MIN_STACKSIZE then (-1, config)
  else (0, size)

/-- `thread_stack_size` over the configured stack size `config`, with
argument `new_size` (default 0 when not passed): rejects a negative
size with ValueError before reading or writing the configuration; then
reads the old size and calls the platform setter, mapping return code
-1 to ValueError and -2 to ThreadError; on success returns the old
size. Result: raised error (if any), new configured size, returned
value. -/
def thread_stack_size (config : Nat) (new_size : Int) :
    Option Err × Nat × Option Int :=
  if new_size < 0 then
    (some (Err.valueError "size must be 0 or a positive value"), config, none)
  else
    let old_size := config
    let rc := PyThread_set_stacksize new_size.toNat config
    if rc.1 = -1 then
      (some (Err.valueError "size not valid"), rc.2, none)
    else if rc.1 = -2 then
      (some (Err.threadError "setting stack size not supported"), rc.2, none)
    else
      (none, rc.2, some (old_size : Int))

/-! ## Theorems -/

/-- Helper: a successful-or-failing join on a joinable handle by a
different thread always leaves the joinable flag cleared. -/
theorem join_snd (h : ThreadHandleObject) (tid : Nat) (r : Bool)
    (hj : h.joinable = true) (hne : h.ident ≠ tid) :
    (ThreadHandle_join h tid r).2 = { h with joinable := false } := by
  cases r <;> simp [ThreadHandle_join, hj, hne]

/-- Helper: a detach on a joinable handle always leaves the joinable
flag cleared, whatever the OS detach primitive returned. -/
theorem detach_snd (h : ThreadHandleObject) (rd : Bool)
    (hj : h.joinable = true) :
    (ThreadHandle_detach h rd).2 = { h with joinable := false } := by
  cases rd <;> simp [ThreadHandle_detach, hj]

/-- Claim C1: on a reentrant lock with positive count (and, per the
data-model invariant, the OS mutex held), `_release_save` succeeds,
returning the captured `(count, owner)` pair and the emptied state;
`_acquire_restore` with the captured pair, run from any state in which
intermediate threads have finished (count 0, mutex free), restores
owner, count and lock-held status exactly — so save-then-restore is
observationally a no-op; and `_release_save` on a lock with count 0
fails with RuntimeError leaving the state unchanged. -/
theorem rlock_save_then_restore_noop (s u t : rlockobject)
    (hc : 0 < s.rlock_count) (hm : s.osHeld = true)
    (hu : u.rlock_count = 0) (hu2 : u.osHeld = false)
    (ht : t.rlock_count = 0) :
    rlock_release_save s
      = (none, some (s.rlock_count, s.rlock_owner),
         { rlock_owner := 0, rlock_count := 0, osHeld := false }) ∧
    rlock_acquire_restore u s.rlock_count s.rlock_owner = s ∧
    rlock_release_save t
      = (some (Err.runtimeError "cannot release un-acquired lock"), none, t) := by
  have hcz : s.rlock_count ≠ 0 := by omega
  refine ⟨by simp [rlock_release_save, hcz], ?_, by simp [rlock_release_save, ht]⟩
  cases s with
  | mk so sc sm =>
    cases u with
    | mk uo uc um => simp_all [rlock_acquire_restore]

/-- Witness for C1 at a concrete lock held three times by thread 5. -/
theorem rlock_save_then_restore_noop_witness :
    rlock_release_save ⟨5, 3, true⟩
      = (none, some (3, 5), ⟨0, 0, false⟩) ∧
    rlock_acquire_restore ⟨0, 0, false⟩ 3 5 = ⟨5, 3, true⟩ ∧
    rlock_release_save ⟨0, 0, false⟩
      = (some (Err.runtimeError "cannot release un-acquired lock"), none,
         ⟨0, 0, false⟩) :=
  rlock_save_then_restore_noop ⟨5, 3, true⟩ ⟨0, 0, false⟩ ⟨0, 0, false⟩
    (by decide) rfl rfl rfl rfl

/-- Claim C2: join on a non-joinable handle fails with ValueError
leaving it unchanged; self-join on a joinable handle fails with
ThreadError without consulting the OS join primitive; a join by another
thread clears the joinable flag whatever the OS primitive returns, and
succeeds when the primitive does; after that first join — and likewise
after a detach — any further join or detach observes ValueError, so of
two join/detach calls exactly one succeeds. -/
theorem threadhandle_join_detach_spec
    (h g k : ThreadHandleObject) (tid tid2 : Nat) (r r2 rd rg rk : Bool)
    (hg : g.joinable = false)
    (hk : k.joinable = true)
    (hj : h.joinable = true) (hne : h.ident ≠ tid) :
    ThreadHandle_join g tid rg
      = (some (Err.valueError "the thread is not joinable"), g) ∧
    ThreadHandle_join k k.ident rk
      = (some (Err.threadError "Cannot join current thread"), k) ∧
    ((ThreadHandle_join h tid r).2).joinable = false ∧
    (r = true → ThreadHandle_join h tid r = (none, { h with joinable := false })) ∧
    (ThreadHandle_join (ThreadHandle_join h tid r).2 tid2 r2).1
      = some (Err.valueError "the thread is not joinable") ∧
    (ThreadHandle_detach (ThreadHandle_join h tid r).2 r2).1
      = some (Err.valueError "the thread is not joinable and thus cannot be detached") ∧
    ((ThreadHandle_detach h rd).2).joinable = false ∧
    (rd = true → ThreadHandle_detach h rd = (none, { h with joinable := false })) ∧
    (ThreadHandle_join (ThreadHandle_detach h rd).2 tid2 r2).1
      = some (Err.valueError "the thread is not joinable") := by
  refine ⟨by simp [ThreadHandle_join, hg], by simp [ThreadHandle_join, hk], ?_, ?_, ?_, ?_, ?_, ?_, ?_⟩
  · rw [join_snd h tid r hj hne]
  · intro hr; simp [ThreadHandle_join, hj, hne, hr]
  · rw [join_snd h tid r hj hne]; simp [ThreadHandle_join]
  · rw [join_snd h tid r hj hne]; simp [ThreadHandle_detach]
  · rw [detach_snd h rd hj]
  · intro hr; simp [ThreadHandle_detach, hj, hr]
  · rw [detach_snd h rd hj]; simp [ThreadHandle_join]

/-- Witness for C2 with handles of identities 1 (joinable), 2
(non-joinable) and 3 (joinable, self-joined). -/
theorem threadhandle_join_detach_witness :
    ThreadHandle_join ⟨2, false⟩ 7 false
      = (some (Err.valueError "the thread is not joinable"), ⟨2, false⟩) ∧
    ThreadHandle_join ⟨3, true⟩ 3 false
      = (some (Err.threadError "Cannot join current thread"), ⟨3, true⟩) ∧
    ThreadHandle_join ⟨1, true⟩ 7 true = (none, ⟨1, false⟩) ∧
    (ThreadHandle_join (ThreadHandle_join ⟨1, true⟩ 7 true).2 8 true).1
      = some (Err.valueError "the thread is not joinable") := by
  have H := threadhandle_join_detach_spec ⟨1, true⟩ ⟨2, false⟩ ⟨3, true⟩ 7 8
    true true true false false rfl rfl rfl (by decide)
  exact ⟨H.1, H.2.1, H.2.2.2.1 rfl, H.2.2.2.2.1⟩

/-- Claim C3: with well-formed acquire arguments, a reentrant acquire
by the current owner increments the count by one and returns true with
the OS mutex untouched (the result does not depend on the mutex oracle
and keeps `osHeld`), except that when the unsigned counter would wrap
(`(count + 1) mod 2^64 ≤ count`) it fails with OverflowError leaving
the state unchanged; an acquire by a non-owner that wins the mutex sets
the owner to the caller and the count to 1. -/
theorem rlock_acquire_spec (s : rlockobject) (tid : Nat) (blocking : Bool)
    (timeout_obj : Option Int) (v : Int) (r : PyLockStatus)
    (hparse : lock_acquire_parse_args blocking timeout_obj = Except.ok v) :
    (rlock_is_owned_by s tid = true →
      ¬ (s.rlock_count + 1) % ULONG_MOD ≤ s.rlock_count →
      rlock_acquire s tid blocking timeout_obj r
        = (none, true, { s with rlock_count := s.rlock_count + 1 })) ∧
    (rlock_is_owned_by s tid = true →
      (s.rlock_count + 1) % ULONG_MOD ≤ s.rlock_count →
      rlock_acquire s tid blocking timeout_obj r
        = (some (Err.overflowError "Internal lock count overflowed"), false, s)) ∧
    (rlock_is_owned_by s tid = false →
      rlock_acquire s tid blocking timeout_obj PyLockStatus.PY_LOCK_ACQUIRED
        = (none, true, { s with rlock_owner := tid, rlock_count := 1, osHeld := true })) := by
  refine ⟨?_, ?_, ?_⟩
  · intro h1 h2
    have hle : (s.rlock_count + 1) % ULONG_MOD ≤ s.rlock_count + 1 :=
      Nat.mod_le _ _
    have heq : (s.rlock_count + 1) % ULONG_MOD = s.rlock_count + 1 := by omega
    simp [rlock_acquire, hparse, h1, heq, h2]
  · intro h1 h2
    simp [rlock_acquire, hparse, h1, h2]
  · intro h1
    simp [rlock_acquire, hparse, h1]

/-- Witness for C3: a re-acquire by owner 7 at count 2, the wraparound
failure at the maximal count, and a fresh acquire by thread 7. -/
theorem rlock_acquire_witness :
    rlock_acquire ⟨7, 2, true⟩ 7 true none PyLockStatus.PY_LOCK_FAILURE
      = (none, true, ⟨7, 3, true⟩) ∧
    rlock_acquire ⟨7, 2 ^ 64 - 1, true⟩ 7 true none PyLockStatus.PY_LOCK_FAILURE
      = (some (Err.overflowError "Internal lock count overflowed"), false,
         ⟨7, 2 ^ 64 - 1, true⟩) ∧
    rlock_acquire ⟨0, 0, false⟩ 7 true none PyLockStatus.PY_LOCK_ACQUIRED
      = (none, true, ⟨7, 1, true⟩) := by
  have H1 := rlock_acquire_spec ⟨7, 2, true⟩ 7 true none unset_timeout
    PyLockStatus.PY_LOCK_FAILURE rfl
  have H2 := rlock_acquire_spec ⟨7, 2 ^ 64 - 1, true⟩ 7 true none unset_timeout
    PyLockStatus.PY_LOCK_FAILURE rfl
  have H3 := rlock_acquire_spec ⟨0, 0, false⟩ 7 true none unset_timeout
    PyLockStatus.PY_LOCK_ACQUIRED rfl
  exact ⟨H1.1 (by decide) (by decide), H2.2.1 (by decide) (by decide),
    H3.2.2 (by decide)⟩

/-- Claim C4: releasing an unlocked plain lock fails with the
release-unlocked-lock error (the code raises ThreadError; the spec
calls this condition StateError) leaving the state unchanged; releasing
a locked lock clears the flag and releases the OS mutex; and the
outcome never depends on which thread calls release. -/
theorem lock_release_spec (s : lockobject) (tid tid2 : Nat) :
    (s.locked = false →
      lock_PyThread_release_lock tid s
        = (some (Err.threadError "release unlocked lock"), s)) ∧
    (s.locked = true →
      lock_PyThread_release_lock tid s
        = (none, { s with locked := false, osHeld := false })) ∧
    lock_PyThread_release_lock tid s = lock_PyThread_release_lock tid2 s := by
  refine ⟨?_, ?_, rfl⟩
  · intro h; simp [lock_PyThread_release_lock, h]
  · intro h; simp [lock_PyThread_release_lock, h]

/-- Witness for C4 on an unlocked and a locked lock, thread 3. -/
theorem lock_release_witness :
    lock_PyThread_release_lock 3 ⟨false, false⟩
      = (some (Err.threadError "release unlocked lock"), ⟨false, false⟩) ∧
    lock_PyThread_release_lock 3 ⟨true, true⟩ = (none, ⟨false, false⟩) :=
  ⟨(lock_release_spec ⟨false, false⟩ 3 4).1 rfl,
   (lock_release_spec ⟨true, true⟩ 3 4).2.1 rfl⟩

/-- Claim C5: a reentrant release by a non-owner — exactly when the
owner field differs from the caller or the count is zero — fails with
RuntimeError leaving the state unchanged; a release by the owner
decrements the count, clearing the owner and releasing the OS mutex
exactly when the count reaches zero. -/
theorem rlock_release_spec (s : rlockobject) (tid : Nat) :
    (rlock_is_owned_by s tid = false ↔
      (s.rlock_owner ≠ tid ∨ s.rlock_count = 0)) ∧
    (rlock_is_owned_by s tid = false →
      rlock_release s tid
        = (some (Err.runtimeError "cannot release un-acquired lock"), s)) ∧
    (rlock_is_owned_by s tid = true → 1 < s.rlock_count →
      rlock_release s tid = (none, { s with rlock_count := s.rlock_count - 1 })) ∧
    (rlock_is_owned_by s tid = true → s.rlock_count = 1 →
      rlock_release s tid
        = (none, { s with rlock_owner := 0, rlock_count := 0, osHeld := false })) := by
  refine ⟨?_, ?_, ?_, ?_⟩
  · simp [rlock_is_owned_by]; tauto
  · intro h; simp [rlock_release, h]
  · intro h h2
    have : s.rlock_count - 1 ≠ 0 := by omega
    simp [rlock_release, h, this]
  · intro h h2; simp [rlock_release, h, h2]

/-- Witness for C5: a non-owner release, an owner release from count 2,
and a final owner release from count 1. -/
theorem rlock_release_witness :
    rlock_release ⟨5, 1, true⟩ 9
      = (some (Err.runtimeError "cannot release un-acquired lock"), ⟨5, 1, true⟩) ∧
    rlock_release ⟨5, 2, true⟩ 5 = (none, ⟨5, 1, true⟩) ∧
    rlock_release ⟨5, 1, true⟩ 5 = (none, ⟨0, 0, false⟩) :=
  ⟨(rlock_release_spec ⟨5, 1, true⟩ 9).2.1 (by decide),
   (rlock_release_spec ⟨5, 2, true⟩ 5).2.2.1 (by decide) (by decide),
   (rlock_release_spec ⟨5, 1, true⟩ 5).2.2.2 (by decide) (by decide)⟩

/-- Claim C6: the after-fork registry walk keeps exactly the handles
whose identity equals the surviving thread, unchanged; every other
handle is removed from the registry with its joinable flag cleared. -/
theorem afterfork_registry_spec (current : Nat) (hs : List ThreadHandleObject) :
    (_PyThread_AfterFork current hs).1
      = hs.filter (fun h => h.ident == current) ∧
    (_PyThread_AfterFork current hs).2
      = (hs.filter (fun h => h.ident != current)).map
          (fun h => { h with joinable := false }) := by
  induction hs with
  | nil => simp [_PyThread_AfterFork]
  | cons h t ih =>
    by_cases hc : h.ident = current
    · simp [_PyThread_AfterFork, hc, List.filter_cons, ih.1, ih.2]
    · simp [_PyThread_AfterFork, hc, List.filter_cons, ih.1, ih.2]

/-- Counterexample for C7: `acquire(timeout=-1)` — a finite negative
timeout, equal to the unset sentinel after conversion — is not
rejected: no ValueError is raised and the lock is acquired. -/
theorem lock_acquire_negative_sentinel_accepted :
    lock_PyThread_acquire_lock ⟨false, false⟩ true (some (-1000000000))
        PyLockStatus.PY_LOCK_ACQUIRED
      = (none, true, ⟨true, true⟩) := by decide

/-- Claim C7 (amended): for any timeout value other than the unset
sentinel (-1 second after conversion), a negative timeout fails with
ValueError, and any timeout together with blocking=false fails with
ValueError; in all cases argument parsing raises before the lock is
touched, so the plain-lock and reentrant-lock states are unchanged. -/
theorem lock_acquire_bad_args_spec (s : lockobject) (q : rlockobject)
    (tid : Nat) (t : Int) (r : PyLockStatus)
    (ht : t ≠ unset_timeout) :
    (t < 0 →
      lock_PyThread_acquire_lock s true (some t) r
        = (some (Err.valueError "timeout value must be a non-negative number"),
           false, s)) ∧
    (t < 0 →
      rlock_acquire q tid true (some t) r
        = (some (Err.valueError "timeout value must be a non-negative number"),
           false, q)) ∧
    lock_PyThread_acquire_lock s false (some t) r
      = (some (Err.valueError "cannot specify a timeout for a non-blocking call"),
         false, s) ∧
    rlock_acquire q tid false (some t) r
      = (some (Err.valueError "cannot specify a timeout for a non-blocking call"),
         false, q) := by
  have hneg : ∀ hlt : t < 0, lock_acquire_parse_args true (some t)
      = Except.error (Err.valueError "timeout value must be a non-negative number") := by
    intro hlt; simp [lock_acquire_parse_args, ht, hlt]
  have hnb : lock_acquire_parse_args false (some t)
      = Except.error (Err.valueError "cannot specify a timeout for a non-blocking call") := by
    simp [lock_acquire_parse_args, ht]
  refine ⟨?_, ?_, ?_, ?_⟩
  · intro hlt; simp [lock_PyThread_acquire_lock, hneg hlt]
  · intro hlt; simp [rlock_acquire, hneg hlt]
  · simp [lock_PyThread_acquire_lock, hnb]
  · simp [rlock_acquire, hnb]

/-- Witness for C7 (amended) at timeout -7 ns (blocking) and 5000 ns
(non-blocking). -/
theorem lock_acquire_bad_args_witness :
    lock_PyThread_acquire_lock ⟨false, false⟩ true (some (-7))
        PyLockStatus.PY_LOCK_ACQUIRED
      = (some (Err.valueError "timeout value must be a non-negative number"),
         false, ⟨false, false⟩) ∧
    rlock_acquire ⟨0, 0, false⟩ 3 false (some 5000)
        PyLockStatus.PY_LOCK_ACQUIRED
      = (some (Err.valueError "cannot specify a timeout for a non-blocking call"),
         false, ⟨0, 0, false⟩) := by
  have H1 := lock_acquire_bad_args_spec ⟨false, false⟩ ⟨0, 0, false⟩ 3 (-7)
    PyLockStatus.PY_LOCK_ACQUIRED (by decide)
  have H2 := lock_acquire_bad_args_spec ⟨false, false⟩ ⟨0, 0, false⟩ 3 5000
    PyLockStatus.PY_LOCK_ACQUIRED (by decide)
  exact ⟨H1.1 (by decide), H2.2.2.2⟩

/-- Counterexample for C8: `stack_size(0)` — a non-positive argument —
does not fail: it succeeds, returns the previous configured size, and
resets the configuration to the platform default. -/
theorem thread_stack_size_zero_accepted :
    thread_stack_size 131072 0 = (none, 0, some 131072) := by decide

/-- Claim C8 (amended): `stack_size(bytes)` with negative bytes fails
synchronously with ValueError leaving the configured size unmodified;
bytes = 0 is accepted, returning the previous size and resetting the
configuration to the platform default. -/
theorem thread_stack_size_spec (config : Nat) (n : Int) (hn : n < 0) :
    thread_stack_size config n
      = (some (Err.valueError "size must be 0 or a positive value"), config, none) ∧
    thread_stack_size config 0 = (none, 0, some (config : Int)) := by
  constructor
  · simp [thread_stack_size, hn]
  · simp [thread_stack_size, PyThread_set_stacksize]

/-- Witness for C8 (amended) at configured size 65536 and argument -1. -/
theorem thread_stack_size_witness :
    thread_stack_size 65536 (-1)
      = (some (Err.valueError "size must be 0 or a positive value"), 65536, none) ∧
    thread_stack_size 65536 0 = (none, 0, some ((65536 : Nat) : Int)) :=
  thread_stack_size_spec 65536 (-1) (by decide)

/-- Claim C9: on a handle whose joinable flag is false, join by the
handle's own thread still fails with ValueError — the joinable check
precedes the self-join check — so the self-join ThreadError can only be
raised on a still-joinable handle. -/
theorem join_nonjoinable_precedes_selfjoin (h : ThreadHandleObject) (r : Bool)
    (hj : h.joinable = false) :
    ThreadHandle_join h h.ident r
      = (some (Err.valueError "the thread is not joinable"), h) := by
  simp [ThreadHandle_join, hj]

/-- Witness for C9 on a non-joinable handle of identity 4 self-joining. -/
theorem join_nonjoinable_selfjoin_witness :
    ThreadHandle_join ⟨4, false⟩ 4 true
      = (some (Err.valueError "the thread is not joinable"), ⟨4, false⟩) :=
  join_nonjoinable_precedes_selfjoin ⟨4, false⟩ true rfl

/-- Claim C10: `_acquire_restore` on a lock with count 0 installs the
passed `(count, owner)` pair verbatim after acquiring the OS mutex —
afterwards the count and owner equal the passed values and the mutex is
held — with no validation of the values; the calling thread identity is
never consulted (the operation does not take it). -/
theorem rlock_acquire_restore_installs_verbatim (s : rlockobject)
    (count owner : Nat) (hc : s.rlock_count = 0) :
    rlock_acquire_restore s count owner
      = { rlock_owner := owner, rlock_count := count, osHeld := true } := by
  simp [rlock_acquire_restore]

/-- Witness for C10 installing count 4, owner 9 on an empty lock. -/
theorem rlock_acquire_restore_witness :
    rlock_acquire_restore ⟨0, 0, false⟩ 4 9 = ⟨9, 4, true⟩ :=
  rlock_acquire_restore_installs_verbatim ⟨0, 0, false⟩ 4 9 rfl

end ThreadModule
